import Mathlib

/-
Verification of the match evaluation and reporting engine in
src/generate_match_report.py (repository ub-digit/kortkat-pipeline).

The Python code is shallowly embedded: pandas DataFrames become lists of
records, pandas/NumPy floats that may be NaN become `Option ℚ` (for the
`similarity` column) or the `PyVal` type (for cells that hold either a
string or the float NaN), and code that can raise returns `Option` /
an explicit error constructor.
-/

/-- Python string values, represented as lists of characters. -/
abbrev PStr := List Char

/-- Character-list form of a Lean string literal. -/
def pstr (s : String) : PStr := s.data

/-- A pandas cell holding either a string or the float NaN (pandas encodes a
missing string cell as the float NaN). -/
inductive PyVal where
  | str : PStr → PyVal
  | nan : PyVal
deriving DecidableEq

/-- Python `str()` as used by `parse_gt_id_string`: a string is returned
unchanged, and `str(float('nan'))` is the four-character string "nan". -/
def pyStr : PyVal → PStr
  | PyVal.str s => s
  | PyVal.nan => pstr "nan"

/-- Characters stripped by Python `str.strip()` (ASCII whitespace). -/
def isPySpace (c : Char) : Bool :=
  c == ' ' || c == '\t' || c == '\n' || c == '\r' || c == '\x0b' || c == '\x0c'

/-- Python `str.strip()`: drop leading and trailing whitespace. -/
def pyStrip (s : PStr) : PStr :=
  ((s.dropWhile isPySpace).reverse.dropWhile isPySpace).reverse

/-- Python `str.split(",")`: split at every comma; `"".split(",") == [""]`. -/
def splitOnComma (s : PStr) : List PStr :=
  s.foldr (fun c acc =>
    match acc with
    | [] => [[c]]
    | cur :: rest => if c = ',' then [] :: cur :: rest else (c :: cur) :: rest) [[]]

/-- The `id_string.replace(";", ",")` step of `parse_gt_id_string`. -/
def replaceSemis (s : PStr) : PStr := s.map (fun c => if c = ';' then ',' else c)

/-- `parse_gt_id_string` (generate_match_report.py lines 281-288): coerce the
cell to a string, replace semicolons by commas, split on commas, strip each
entry and drop entries that strip to the empty string. -/
def parse_gt_id_string (v : PyVal) : List PStr :=
  ((splitOnComma (replaceSemis (pyStr v))).map pyStrip).filter (fun t => !t.isEmpty)

/-- One row of the merged candidate/ground-truth table consumed by
`evaluate_match` and `label_matches` (match-result columns joined with the
ground-truth columns of the same match object). -/
structure CandidateRow where
  box : PStr
  card : PStr
  card_ID : PStr
  match_object_ID : PStr
  card_type : PStr
  match_stat : PStr
  matched_ID : PyVal
  similarity : Option ℚ
  gt_card_type : PStr
  gt_truth_type : PStr
  libris_ID : PyVal
deriving DecidableEq

/-- Python `matched_id in gt_id_list` where the list elements are strings
produced by `parse_gt_id_string`: a NaN cell equals no string. -/
def pyInStrList (v : PyVal) (l : List PStr) : Bool :=
  match v with
  | PyVal.str s => l.contains s
  | PyVal.nan => false

/-- `evaluate_match` (generate_match_report.py lines 290-309): per-row local
evaluation of one candidate against its ground truth. -/
def evaluate_match (row : CandidateRow) : PStr :=
  if row.match_stat = pstr "No match" then
    (if row.gt_truth_type = pstr "no-match" then pstr "Correct" else pstr "Incorrect")
  else if row.match_stat = pstr "No edition" then pstr "No edition"
  else if pyInStrList row.matched_ID (parse_gt_id_string row.libris_ID) then pstr "Correct"
  else pstr "Incorrect"

/-- One row of the per-match-object outcome table produced by `label_matches`
(generate_match_report.py lines 260-277).  The rendering-only fields
`kortkat_URL`, `matched_IDs` and `similarity_scores` (formatted audit
strings) are not modelled; no claim mentions them. -/
structure ResultRow where
  box : PStr
  card : PStr
  card_ID : PStr
  match_object_ID : PStr
  gt_card_type : PStr
  gt_truth_type : PStr
  gt_libris_ID : PyVal
  card_type : PStr
  match_stat : PStr
  matched_ID : Option PyVal
  matched_similarity : Option ℚ
  correct_count : Option ℕ
  result : PStr
deriving DecidableEq

/-- pandas `Series.idxmax` over the `similarity` column, returning the picked
row together with its (non-NaN) similarity: NaN entries are skipped, and of
several equal maxima the first in input order is returned.  `none` models the
`ValueError` pandas raises when every value is NaN. -/
def idxmaxSim : List CandidateRow → Option (CandidateRow × ℚ)
  | [] => none
  | r :: rs =>
    match r.similarity, idxmaxSim rs with
    | none, o => o
    | some s, none => some (r, s)
    | some s, some (b, bs) => if bs > s then some (b, bs) else some (r, s)

/-- Builds the `pd.Series` returned by `label_matches`: all identifying fields
are taken from the group's first row (`group.iloc[0]` / `group['...'].iloc[0]`
in the source). -/
def mkResult (r0 : CandidateRow) (res : PStr) (mID : Option PyVal) (mSim : Option ℚ)
    (cc : Option ℕ) : ResultRow :=
  { box := r0.box, card := r0.card, card_ID := r0.card_ID,
    match_object_ID := r0.match_object_ID, gt_card_type := r0.gt_card_type,
    gt_truth_type := r0.gt_truth_type, gt_libris_ID := r0.libris_ID,
    card_type := r0.card_type, match_stat := r0.match_stat,
    matched_ID := mID, matched_similarity := mSim, correct_count := cc, result := res }

/-- `label_matches` (generate_match_report.py lines 226-279) on one group of
candidate rows sharing a `match_object_ID`.  pandas groups are nonempty, so
the group is passed as head `r0` plus tail `rs`.  `none` models the
`ValueError` raised by `idxmax` when the similarities it scans are all NaN;
in every other case exactly one outcome row is produced.  In the source the
`match_result` column has been precomputed as `evaluate_match` of each row. -/
def label_matches (r0 : CandidateRow) (rs : List CandidateRow) : Option ResultRow :=
  if ∃ r ∈ r0 :: rs, r.match_stat = pstr "No match" then
    (if evaluate_match r0 = pstr "Correct" then
      some (mkResult r0 (pstr "Correct") none none none)
     else some (mkResult r0 (pstr "Incorrect") none none none))
  else if ∃ r ∈ r0 :: rs, r.match_stat = pstr "No edition" then
    some (mkResult r0 (pstr "No edition") none none none)
  else
    match idxmaxSim (r0 :: rs) with
    | none => none
    | some (top, topSim) =>
      let cc := ((r0 :: rs).filter (fun r => decide (evaluate_match r = pstr "Correct"))).length
      if evaluate_match top = pstr "Correct" then
        some (mkResult r0 (pstr "Correct") (some top.matched_ID) (some topSim) (some cc))
      else if cc > 0 then
        match idxmaxSim ((r0 :: rs).filter (fun r => decide (evaluate_match r = pstr "Correct"))) with
        | none => none
        | some (w, wSim) =>
          some (mkResult r0 (pstr "Secondary correct") (some w.matched_ID) (some wSim) (some cc))
      else
        some (mkResult r0 (pstr "Incorrect") (some top.matched_ID) (some topSim) (some cc))

/-- One row of the raw match-results spreadsheet as loaded by `load_data`. -/
structure MatchRow where
  box : PStr
  card : PStr
  card_ID : PStr
  match_object_ID : PStr
  card_type : PStr
  match_stat : PStr
  matched_ID : PyVal
  similarity : Option ℚ
deriving DecidableEq

/-- One row of the ground-truth spreadsheet as loaded by `load_data`. -/
structure GtRow where
  card_ID : PStr
  gt_entry_ID : PStr
  gt_card_type : PStr
  gt_truth_type : PStr
  libris_ID : PyVal
deriving DecidableEq

/-- One merged row (match columns plus the `_gt`-suffixed ground-truth
columns of the joined entry). -/
def mkCandidate (m : MatchRow) (g : GtRow) : CandidateRow :=
  { box := m.box, card := m.card, card_ID := m.card_ID,
    match_object_ID := m.match_object_ID, card_type := m.card_type,
    match_stat := m.match_stat, matched_ID := m.matched_ID,
    similarity := m.similarity, gt_card_type := g.gt_card_type,
    gt_truth_type := g.gt_truth_type, libris_ID := g.libris_ID }

/-- The reference-card filter of `load_data` (line 55): drop rows whose
`card_type` is the literal marker. -/
def matchesWithoutRefs (ms : List MatchRow) : List MatchRow :=
  ms.filter (fun r => decide (r.card_type ≠ pstr "Hänvisning"))

/-- pandas `nunique` of a column. -/
def nuniq (l : List PStr) : ℕ := l.dedup.length

/-- Distinct-`match_object_ID` count restricted to one card. -/
def moidsOfCard (ms : List MatchRow) (cid : PStr) : List PStr :=
  (ms.filter (fun r => decide (r.card_ID = cid))).map (fun r => r.match_object_ID)

/-- Ground-truth entry IDs of one card. -/
def gtEntriesOfCard (gs : List GtRow) (cid : PStr) : List PStr :=
  (gs.filter (fun r => decide (r.card_ID = cid))).map (fun r => r.gt_entry_ID)

/-- `matching_cards` of `load_data` (lines 59-67): cards present on both sides
(the per-card count tables are inner-merged) whose distinct
match-object count equals the distinct ground-truth entry count. -/
def matchingCards (ms : List MatchRow) (gs : List GtRow) : List PStr :=
  (((matchesWithoutRefs ms).map (fun r => r.card_ID)).dedup).filter
    (fun cid => decide ((∃ g ∈ gs, g.card_ID = cid) ∧
      nuniq (moidsOfCard (matchesWithoutRefs ms) cid) = nuniq (gtEntriesOfCard gs cid)))

/-- The filtered inner join of `load_data` (lines 70-83): both tables are
restricted to the matching cards and joined on
`match_object_ID == gt_entry_ID`. -/
def mergedRows (ms : List MatchRow) (gs : List GtRow) : List CandidateRow :=
  let keep := matchingCards ms gs
  let mf := (matchesWithoutRefs ms).filter (fun r => decide (r.card_ID ∈ keep))
  let gf := gs.filter (fun r => decide (r.card_ID ∈ keep))
  (mf.map (fun m =>
    (gf.filter (fun g => decide (g.gt_entry_ID = m.match_object_ID))).map
      (fun g => mkCandidate m g))).flatten

/-- `load_data` (lines 15-89): when either loaded table is missing or empty
the function prints a notice and returns the `(None, None, None)` triple,
modelled as `none`; otherwise it returns both tables and the merged table. -/
def load_data (ms : List MatchRow) (gs : List GtRow) :
    Option (List MatchRow × List GtRow × List CandidateRow) :=
  if ms.isEmpty || gs.isEmpty then none
  else some (ms, gs, mergedRows ms gs)

/-- Distinct `(card_ID, card_type)` pairs (`drop_duplicates`; which duplicate
survives is irrelevant because equal pairs are identical). -/
def cardTypePairs (ms : List MatchRow) : List (PStr × PStr) :=
  (ms.map (fun r => (r.card_ID, r.card_type))).dedup

/-- Distinct `(card_ID, gt_card_type)` pairs of the ground truth. -/
def gtCardTypePairs (gs : List GtRow) : List (PStr × PStr) :=
  (gs.map (fun r => (r.card_ID, r.gt_card_type))).dedup

/-- `evaluate_extracted_card_types` (lines 92-101): outer merge of the two
distinct-pair tables on `card_ID`, missing sides filled with "Unknown".
Each row is `(card_ID, card_type, gt_card_type)`; row order is irrelevant to
every counted quantity. -/
def evaluate_extracted_card_types (ms : List MatchRow) (gs : List GtRow) :
    List (PStr × PStr × PStr) :=
  let mp := cardTypePairs ms
  let gp := gtCardTypePairs gs
  ((mp.map (fun p =>
      let hits := gp.filter (fun q => decide (q.1 = p.1))
      if hits.isEmpty then [(p.1, p.2, pstr "Unknown")]
      else hits.map (fun q => (p.1, p.2, q.2)))).flatten)
  ++ ((gp.filter (fun q => decide (∀ p ∈ mp, p.1 ≠ q.1))).map
      (fun q => (q.1, pstr "Unknown", q.2)))

/-- `drop_duplicates(subset="match_object_ID", keep="first")`, with the set of
already-seen IDs as accumulator. -/
def dedupByMOIDAux : List PStr → List MatchRow → List MatchRow
  | _, [] => []
  | seen, r :: rs =>
    if r.match_object_ID ∈ seen then dedupByMOIDAux seen rs
    else r :: dedupByMOIDAux (r.match_object_ID :: seen) rs

/-- First-occurrence deduplication by `match_object_ID`. -/
def dedupByMOID (ms : List MatchRow) : List MatchRow := dedupByMOIDAux [] ms

/-- The card set of `evaluate_extracted_occurences` (line 106): distinct
non-reference cards. -/
def occCards (ms : List MatchRow) : List PStr :=
  ((matchesWithoutRefs ms).map (fun r => r.card_ID)).dedup

/-- Per-card match-object count of `evaluate_extracted_occurences` (lines
109-112): drop `No edition` rows, deduplicate by `match_object_ID`, count
rows of the card. -/
def occMatchCount (ms : List MatchRow) (cid : PStr) : ℕ :=
  ((dedupByMOID (ms.filter (fun r => decide (r.match_stat ≠ pstr "No edition")))).filter
    (fun r => decide (r.card_ID = cid))).length

/-- Per-card ground-truth entry count (line 115); cards absent from the
ground truth get the `fillna(0)` count 0. -/
def occGtCount (gs : List GtRow) (cid : PStr) : ℕ :=
  (gs.filter (fun r => decide (r.card_ID = cid))).length

/-- `evaluate_extracted_occurences` (lines 104-120): one row
`(card_ID, match_count, gt_count)` per distinct non-reference card. -/
def evaluate_extracted_occurences (ms : List MatchRow) (gs : List GtRow) :
    List (PStr × ℕ × ℕ) :=
  (occCards ms).map (fun cid => (cid, occMatchCount ms cid, occGtCount gs cid))

/-- One row of the card-completeness table of `evaluate_card_completeness`. -/
structure CompletenessRow where
  card_ID : PStr
  box : PStr
  card : PStr
  card_type : PStr
  completeness : PStr
deriving DecidableEq

/-- The outcome rows belonging to one card. -/
def resultsOfCard (results : List ResultRow) (cid : PStr) : List ResultRow :=
  results.filter (fun r => decide (r.card_ID = cid))

/-- The per-card series built by `evaluate_card_completeness` (lines 311-320):
identifying fields from the card's first outcome row, and "Complete" exactly
when every outcome row of the card has `match_stat == "Single"`. -/
def cardSummary (results : List ResultRow) (cid : PStr) : CompletenessRow :=
  let g := resultsOfCard results cid
  { card_ID := cid,
    box := (g.head?.map (fun r => r.box)).getD [],
    card := (g.head?.map (fun r => r.card)).getD [],
    card_type := (g.head?.map (fun r => r.card_type)).getD [],
    completeness :=
      if ∀ r ∈ g, r.match_stat = pstr "Single" then pstr "Complete" else pstr "Incomplete" }

/-- `evaluate_card_completeness` (lines 311-320): one completeness row per
distinct card of the outcome table (groupby key order is irrelevant to every
counted quantity). -/
def evaluate_card_completeness (results : List ResultRow) : List CompletenessRow :=
  ((results.map (fun r => r.card_ID)).dedup).map (cardSummary results)

/-- The card-completeness pivot (line 522): count of cards per
(`card_type` × completeness) cell; `card_ID` is never null so the `count`
aggregation counts the rows of the cell. -/
def completeness_pivot (rows : List CompletenessRow) (ctype cstat : PStr) : ℕ :=
  (rows.filter (fun r => decide (r.card_type = ctype ∧ r.completeness = cstat))).length

/-- The groupby keys of `matches_df.groupby("match_object_ID")`; key order is
irrelevant to every claim. -/
def groupKeys (rows : List CandidateRow) : List PStr :=
  (rows.map (fun r => r.match_object_ID)).dedup

/-- The rows of one match-object group, in input order. -/
def groupOf (rows : List CandidateRow) (k : PStr) : List CandidateRow :=
  rows.filter (fun r => decide (r.match_object_ID = k))

/-- `label_matches` applied to the (nonempty) group of one key. -/
def labelGroup (rows : List CandidateRow) (k : PStr) : Option ResultRow :=
  match groupOf rows k with
  | [] => none
  | r :: rs => label_matches r rs

/-- `groupby("match_object_ID").apply(label_matches)` (line 168): `none` when
any group raises. -/
def labelAll (rows : List CandidateRow) : Option (List ResultRow) :=
  (groupKeys rows).mapM (labelGroup rows)

/-- The distinct `result` values of the outcome table (`all_results`,
line 417), used as the reindexed cross-tab columns. -/
def all_results (results : List ResultRow) : List PStr :=
  (results.map (fun r => r.result)).dedup

/-- One cell of the (`match_stat` × `result`) pivot with `aggfunc="count"`. -/
def statResultCount (results : List ResultRow) (stat res : PStr) : ℕ :=
  (results.filter (fun r => decide (r.match_stat = stat ∧ r.result = res))).length

/-- One reindexed cross-tab row: the counts of one `match_stat` under every
observed `result` column (absent combinations filled with 0). -/
def crossTabRow (results : List ResultRow) (stat : PStr) : List (PStr × ℕ) :=
  (all_results results).map (fun res => (res, statResultCount results stat res))

/-- Python `row.get(key, 0)` on a cross-tab row. -/
def rowGet (row : List (PStr × ℕ)) (k : PStr) : ℕ :=
  ((row.find? (fun p => decide (p.1 = k))).map (fun p => p.2)).getD 0

/-- `calculate_error_rate` (generate_match_report.py lines 453-461): NaN
(`none`) when the three outcome counts are all zero, else the error ratio. -/
def calculate_error_rate (row : List (PStr × ℕ)) : Option ℚ :=
  let c := rowGet row (pstr "Correct")
  let i := rowGet row (pstr "Incorrect")
  let s := rowGet row (pstr "Secondary correct")
  if c + i + s = 0 then none
  else some (((i : ℚ) + (s : ℚ)) / ((c : ℚ) + (i : ℚ) + (s : ℚ)))

/-- The class set of `sklearn.metrics.classification_report`: every label
occurring as truth or prediction (sklearn sorts them; order is irrelevant to
the support sum). -/
def reportClasses {α : Type} [DecidableEq α] (ytrue ypred : List α) : List α :=
  (ytrue ++ ypred).dedup

/-- Sum over all classes of the per-class `support` column (the support of a
class is the number of truth entries equal to it). -/
def supportSum {α : Type} [DecidableEq α] (ytrue ypred : List α) : ℕ :=
  ((reportClasses ytrue ypred).map (fun c => ytrue.count c)).sum

/-- Truth column of the card-type classification report (line 503). -/
def cardTypesYTrue (ms : List MatchRow) (gs : List GtRow) : List PStr :=
  (evaluate_extracted_card_types ms gs).map (fun r => r.2.2)

/-- Prediction column of the card-type classification report (line 504). -/
def cardTypesYPred (ms : List MatchRow) (gs : List GtRow) : List PStr :=
  (evaluate_extracted_card_types ms gs).map (fun r => r.2.1)

/-- The distinct cards underlying the card-type confusion matrix. -/
def cardTypesCards (ms : List MatchRow) (gs : List GtRow) : List PStr :=
  ((evaluate_extracted_card_types ms gs).map (fun r => r.1)).dedup

/-- Truth column of the occurrence classification report (line 515). -/
def occYTrue (ms : List MatchRow) (gs : List GtRow) : List ℕ :=
  (evaluate_extracted_occurences ms gs).map (fun r => r.2.2)

/-- Prediction column of the occurrence classification report (line 516). -/
def occYPred (ms : List MatchRow) (gs : List GtRow) : List ℕ :=
  (evaluate_extracted_occurences ms gs).map (fun r => r.2.1)

/-- NumPy `.min()` of an array; `none` models the error raised on an empty
array. -/
def npMin : List ℚ → Option ℚ
  | [] => none
  | x :: xs => some (xs.foldl min x)

/-- NumPy `.max()` of an array. -/
def npMax : List ℚ → Option ℚ
  | [] => none
  | x :: xs => some (xs.foldl max x)

/-- `np.linspace(a, b, n)`: n evenly spaced points from a to b inclusive. -/
def linspace (a b : ℚ) (n : ℕ) : List ℚ :=
  (List.range n).map (fun (i : ℕ) => a + (b - a) * (i : ℚ) / ((n : ℚ) - 1))

/-- The histogram bin edges computed by `draw_histogram` (lines 322-338):
observed min/max over both series, padded by 5% of the observed range,
clipped to [0, 1], and passed to `np.linspace(..., 40)`. -/
def histBins (correct incorrect : List ℚ) : Option (List ℚ) :=
  match npMin correct, npMax correct, npMin incorrect, npMax incorrect with
  | some cmin, some cmax, some imin, some imax =>
    let score_min := min cmin imin
    let score_max := max cmax imax
    let padding := (5 / 100 : ℚ) * (score_max - score_min)
    let bin_min := max 0 (score_min - padding)
    let bin_max := min 1 (score_max + padding)
    some (linspace bin_min bin_max 40)
  | _, _, _, _ => none

/-- The number of histogram buckets produced by a list of bin edges
(`ax.hist`/`np.histogram` with an edge array of length n makes n - 1
buckets). -/
def numHistBuckets (edges : List ℚ) : ℕ := edges.length - 1

/-- Outcome of one run of the `__main__` block (lines 597-615). -/
inductive RunOutcome where
  | exn : PStr → RunOutcome
  | noData : RunOutcome
  | reported : List ResultRow → List (PStr × PStr × PStr) → List (PStr × ℕ × ℕ) →
      List CompletenessRow → RunOutcome
deriving DecidableEq

/-- The `__main__` control flow after path resolution (lines 602-613).  When
`load_data` returns the `None` triple, the unconditional
`evaluate_extracted_card_types(matchresults_df, gt_df)` call subscripts
`None` and raises `TypeError`; when the merged table is empty the run prints
"No data to evaluate." and skips both report artifacts; otherwise the groups
are labelled (a group whose similarities are all NaN raises `ValueError`
inside `idxmax`) and the reports are produced. -/
def mainFlow (ms : List MatchRow) (gs : List GtRow) : RunOutcome :=
  match load_data ms gs with
  | none => RunOutcome.exn (pstr "TypeError")
  | some (m, g, merged) =>
    let ect := evaluate_extracted_card_types m g
    let eeo := evaluate_extracted_occurences m g
    if merged.isEmpty then RunOutcome.noData
    else
      match labelAll merged with
      | none => RunOutcome.exn (pstr "ValueError")
      | some results =>
        RunOutcome.reported results ect eeo (evaluate_card_completeness results)

/-- Spec-side characterisation of "the row with maximum `similarity`, ties
broken by first occurrence in input order": `t` carries similarity `s`, no
row has a larger similarity, and every row before `t` has a strictly smaller
one (NaN similarities carry no value and are skipped). -/
def FirstMaxOf (g : List CandidateRow) (t : CandidateRow) (s : ℚ) : Prop :=
  t.similarity = some s ∧
  (∀ r ∈ g, ∀ q : ℚ, r.similarity = some q → q ≤ s) ∧
  ∃ pre post, g = pre ++ t :: post ∧ ∀ r ∈ pre, ∀ q : ℚ, r.similarity = some q → q < s

/-- Conclusion of claim C1 for the group `r0 :: rs`: the classifier picks the
first-occurring maximum-similarity row as top candidate, reports the number
of locally correct rows, and resolves the three outcome branches as the
claim states. -/
def C1Concl (r0 : CandidateRow) (rs : List CandidateRow) : Prop :=
  ∃ t s res, idxmaxSim (r0 :: rs) = some (t, s) ∧ FirstMaxOf (r0 :: rs) t s ∧
    label_matches r0 rs = some res ∧
    res.correct_count =
      some (((r0 :: rs).filter (fun r => decide (evaluate_match r = pstr "Correct"))).length) ∧
    (evaluate_match t = pstr "Correct" →
      res.result = pstr "Correct" ∧ res.matched_ID = some t.matched_ID ∧
      res.matched_similarity = some s) ∧
    (evaluate_match t ≠ pstr "Correct" → (∃ r ∈ r0 :: rs, evaluate_match r = pstr "Correct") →
      res.result = pstr "Secondary correct" ∧
      ∃ w ws, FirstMaxOf ((r0 :: rs).filter (fun r => decide (evaluate_match r = pstr "Correct"))) w ws ∧
        res.matched_ID = some w.matched_ID ∧ res.matched_similarity = some ws) ∧
    (evaluate_match t ≠ pstr "Correct" → (∀ r ∈ r0 :: rs, evaluate_match r ≠ pstr "Correct") →
      res.result = pstr "Incorrect" ∧ res.matched_ID = some t.matched_ID ∧
      res.matched_similarity = some s)

/-- Builder for concrete candidate rows used in witnesses/counterexamples. -/
def mkCand (stat : String) (mid : PyVal) (sim : Option ℚ) (tt : String) (lib : PyVal) :
    CandidateRow :=
  { box := pstr "1", card := pstr "2", card_ID := pstr "c1",
    match_object_ID := pstr "o1", card_type := pstr "Monografi",
    match_stat := pstr stat, matched_ID := mid, similarity := sim,
    gt_card_type := pstr "Monografi", gt_truth_type := pstr tt, libris_ID := lib }

/-- C1 witness group, first row: similarity 0.9, wrong ID. -/
def c1wA : CandidateRow :=
  mkCand "Multiple" (PyVal.str (pstr "B1")) (some (9 / 10)) "match" (PyVal.str (pstr "A1"))

/-- C1 witness group, second row: similarity 0.7, correct ID. -/
def c1wB : CandidateRow :=
  mkCand "Multiple" (PyVal.str (pstr "A1")) (some (7 / 10)) "match" (PyVal.str (pstr "A1"))

/-- C2 counterexample, first row of the group: a Single candidate whose ID is
not in the (empty) ground-truth list, hence locally Incorrect. -/
def c2xA : CandidateRow :=
  mkCand "Single" (PyVal.str (pstr "X")) (some (9 / 10)) "no-match" (PyVal.str (pstr ""))

/-- C2 counterexample, second row: a No-match row whose ground truth says
no-match, hence locally Correct. -/
def c2xB : CandidateRow :=
  mkCand "No match" PyVal.nan none "no-match" (PyVal.str (pstr ""))

/-- C2 witness group: a lone No-match row with ground truth no-match. -/
def c2wA : CandidateRow :=
  mkCand "No match" PyVal.nan none "no-match" (PyVal.str (pstr ""))

/-- C3: one well-formed ground-truth row. -/
def c3g1 : GtRow :=
  { card_ID := pstr "c1", gt_entry_ID := pstr "o1", gt_card_type := pstr "Monografi",
    gt_truth_type := pstr "match", libris_ID := PyVal.str (pstr "A1") }

/-- C3: a second ground-truth entry on the same card, making the per-card
counts disagree so that the cardinality filter removes the card. -/
def c3g2 : GtRow :=
  { card_ID := pstr "c1", gt_entry_ID := pstr "o2", gt_card_type := pstr "Monografi",
    gt_truth_type := pstr "match", libris_ID := PyVal.str (pstr "A2") }

/-- C3: one well-formed match row. -/
def c3m1 : MatchRow :=
  { box := pstr "1", card := pstr "2", card_ID := pstr "c1",
    match_object_ID := pstr "o1", card_type := pstr "Monografi",
    match_stat := pstr "Single", matched_ID := PyVal.str (pstr "A1"),
    similarity := some (9 / 10) }

/-- C6 counterexample, first candidate row of the match object: Single,
similarity 0.9, locally Correct. -/
def c6xA : CandidateRow :=
  mkCand "Single" (PyVal.str (pstr "X")) (some 2) "match" (PyVal.str (pstr "X"))

/-- C6 counterexample, second candidate row of the same match object: its
`match_stat` is not Single. -/
def c6xB : CandidateRow :=
  mkCand "Multiple" (PyVal.str (pstr "Y")) (some 1) "match" (PyVal.str (pstr "X"))

/-- C6 witness: one outcome row with `match_stat` Single. -/
def c6wR : ResultRow :=
  { box := pstr "1", card := pstr "2", card_ID := pstr "c2",
    match_object_ID := pstr "o2", gt_card_type := pstr "Monografi",
    gt_truth_type := pstr "match", gt_libris_ID := PyVal.str (pstr "A1"),
    card_type := pstr "Monografi", match_stat := pstr "Single",
    matched_ID := some (PyVal.str (pstr "A1")), matched_similarity := some (9 / 10),
    correct_count := some 1, result := pstr "Correct" }

/-- C7 counterexample: two match rows of the same card with two distinct
`card_type` values. -/
def c7m1 : MatchRow :=
  { box := pstr "1", card := pstr "2", card_ID := pstr "c1",
    match_object_ID := pstr "o1", card_type := pstr "Monografi",
    match_stat := pstr "Single", matched_ID := PyVal.str (pstr "A1"),
    similarity := some (9 / 10) }

/-- C7 counterexample: second match row of card c1 with another card type. -/
def c7m2 : MatchRow :=
  { box := pstr "1", card := pstr "2", card_ID := pstr "c1",
    match_object_ID := pstr "o2", card_type := pstr "Okänd",
    match_stat := pstr "Single", matched_ID := PyVal.str (pstr "A2"),
    similarity := some (8 / 10) }

/-- C7 counterexample: ground truth gives card c1 a single card type. -/
def c7g1 : GtRow :=
  { card_ID := pstr "c1", gt_entry_ID := pstr "o1", gt_card_type := pstr "Monografi",
    gt_truth_type := pstr "match", libris_ID := PyVal.str (pstr "A1") }

/-- C9 counterexample: a real (Single) candidate whose similarity is missing. -/
def c9row : CandidateRow :=
  mkCand "Single" (PyVal.str (pstr "A1")) none "match" (PyVal.str (pstr "A1"))

/-- C9 counterexample at the pipeline level: the match row producing that
group. -/
def c9m1 : MatchRow :=
  { box := pstr "1", card := pstr "2", card_ID := pstr "c1",
    match_object_ID := pstr "o1", card_type := pstr "Monografi",
    match_stat := pstr "Single", matched_ID := PyVal.str (pstr "A1"),
    similarity := none }

/-- C9 counterexample: the ground-truth row joined to `c9m1`. -/
def c9g1 : GtRow :=
  { card_ID := pstr "c1", gt_entry_ID := pstr "o1", gt_card_type := pstr "Monografi",
    gt_truth_type := pstr "match", libris_ID := PyVal.str (pstr "A1") }

/-- C9 witness row: similarity present but `matched_ID` missing (NaN). -/
def c9wRow : CandidateRow :=
  mkCand "Single" PyVal.nan (some (6 / 10)) "match" (PyVal.str (pstr "A1"))

/-- C10: a candidate whose `matched_ID` is the literal string "nan" while the
ground-truth `libris_ID` cell is missing (NaN). -/
def c10row : CandidateRow :=
  mkCand "Single" (PyVal.str (pstr "nan")) (some (9 / 10)) "match" PyVal.nan

/-- Conclusion of the amended claim C2 for a group containing a No-match row:
the outcome is the local evaluation of the group's FIRST row, with no winning
ID; in particular a leading No-match row with ground truth no-match yields
"Correct". -/
def C2Concl (r0 : CandidateRow) (rs : List CandidateRow) : Prop :=
  label_matches r0 rs =
    some (mkResult r0
      (if evaluate_match r0 = pstr "Correct" then pstr "Correct" else pstr "Incorrect")
      none none none) ∧
  (r0.match_stat = pstr "No match" → r0.gt_truth_type = pstr "no-match" →
    (label_matches r0 rs).map (fun r => r.result) = some (pstr "Correct"))

/-- Conclusion of the amended claim C9: the group is assigned an outcome. -/
def C9Concl (r0 : CandidateRow) (rs : List CandidateRow) : Prop :=
  (label_matches r0 rs).isSome = true

/-- Conclusion of the amended claim C6 for one row of the completeness table:
the label is "Complete" iff every outcome row of that card has `match_stat`
"Single", and the completeness summary pivot counts cards per
(`card_type` × completeness) cell. -/
def C6Concl (results : List ResultRow) (cr : CompletenessRow) : Prop :=
  (cr.completeness = pstr "Complete" ↔
    ∀ r ∈ results, r.card_ID = cr.card_ID → r.match_stat = pstr "Single") ∧
  (∀ ctype cstat : PStr,
    completeness_pivot (evaluate_card_completeness results) ctype cstat =
      (((results.map (fun r => r.card_ID)).dedup).filter
        (fun cid => decide ((cardSummary results cid).card_type = ctype ∧
          (cardSummary results cid).completeness = cstat))).length)

/-- The padded-and-clipped lower bin edge of `draw_histogram`. -/
def binLo (cmin cmax imin imax : ℚ) : ℚ :=
  max 0 (min cmin imin - (5 / 100 : ℚ) * (max cmax imax - min cmin imin))

/-- The padded-and-clipped upper bin edge of `draw_histogram`. -/
def binHi (cmin cmax imin imax : ℚ) : ℚ :=
  min 1 (max cmax imax + (5 / 100 : ℚ) * (max cmax imax - min cmin imin))

/-- Conclusion of the amended claim C8: the bin-edge array is
`linspace(binLo, binHi, 40)` — 40 edges, hence 39 buckets — whose first and
last entries are the padded, clipped observed bounds. -/
def C8Concl (c i : List ℚ) (cmin cmax imin imax : ℚ) : Prop :=
  histBins c i = some (linspace (binLo cmin cmax imin imax) (binHi cmin cmax imin imax) 40) ∧
  (linspace (binLo cmin cmax imin imax) (binHi cmin cmax imin imax) 40).length = 40 ∧
  numHistBuckets (linspace (binLo cmin cmax imin imax) (binHi cmin cmax imin imax) 40) = 39 ∧
  (linspace (binLo cmin cmax imin imax) (binHi cmin cmax imin imax) 40).getD 0 0 =
    binLo cmin cmax imin imax ∧
  (linspace (binLo cmin cmax imin imax) (binHi cmin cmax imin imax) 40).getD 39 0 =
    binHi cmin cmax imin imax

/- ------------------------------------------------------------------ -/
/- Theorems.                                                           -/
/- ------------------------------------------------------------------ -/

/-- Claim C5: parsing a ground-truth ID string treats commas and semicolons as
interchangeable delimiters, trims whitespace from each entry and drops empty
entries; "123, 456;789" parses to ["123","456","789"] and a whitespace-only
string parses to the empty list. -/
theorem c5_parse_gt_id_string_delimiters :
    parse_gt_id_string (PyVal.str (pstr "123, 456;789")) =
      [pstr "123", pstr "456", pstr "789"] ∧
    parse_gt_id_string (PyVal.str (pstr "  ")) = [] ∧
    ∀ s t : PStr, parse_gt_id_string (PyVal.str (s ++ ';' :: t)) =
      parse_gt_id_string (PyVal.str (s ++ ',' :: t)) := by
  refine ⟨by decide, by decide, ?_⟩
  intro s t
  unfold parse_gt_id_string
  have h : replaceSemis (pyStr (PyVal.str (s ++ ';' :: t))) =
      replaceSemis (pyStr (PyVal.str (s ++ ',' :: t))) := by
    simp [pyStr, replaceSemis]
  rw [h]

/-- Claim C10: `parse_gt_id_string` stringifies its argument first, so it is
total; a NaN `libris_ID` stringifies to "nan" and parses to the
single-element list ["nan"] (not the empty list), so a candidate whose
`matched_ID` is the string "nan" evaluates as locally Correct against a
missing ground-truth cell. -/
theorem c10_parse_gt_id_string_total_nan :
    (∀ v : PyVal, parse_gt_id_string v = parse_gt_id_string (PyVal.str (pyStr v))) ∧
    parse_gt_id_string PyVal.nan = [pstr "nan"] ∧
    parse_gt_id_string PyVal.nan ≠ [] ∧
    c10row.matched_ID = PyVal.str (pstr "nan") ∧
    c10row.libris_ID = PyVal.nan ∧
    c10row.match_stat ≠ pstr "No match" ∧
    evaluate_match c10row = pstr "Correct" := by
  refine ⟨?_, by decide, by decide, by decide, by decide, by decide, by decide⟩
  intro v
  cases v <;> rfl

/-- Helper: `idxmaxSim` succeeds as soon as some row has a present
similarity. -/
theorem idxmaxSim_isSome {g : List CandidateRow}
    (h : ∃ r ∈ g, (r.similarity).isSome) : (idxmaxSim g).isSome := by
  induction g with
  | nil => obtain ⟨r, hr, _⟩ := h; cases hr
  | cons a l ih =>
    obtain ⟨r, hr, hs⟩ := h
    rcases List.mem_cons.mp hr with rfl | hr
    · obtain ⟨q, hq⟩ := Option.isSome_iff_exists.mp hs
      unfold idxmaxSim
      rw [hq]
      cases h2 : idxmaxSim l with
      | none => simp
      | some p =>
        obtain ⟨b, bs⟩ := p
        by_cases hgt : bs > q <;> simp [hgt]
    · have hrec := ih ⟨r, hr, hs⟩
      unfold idxmaxSim
      cases hsa : a.similarity with
      | none => simpa using hrec
      | some s =>
        cases h2 : idxmaxSim l with
        | none => simp
        | some p =>
          obtain ⟨b, bs⟩ := p
          by_cases hgt : bs > s <;> simp [hgt]

/-- Helper: `idxmaxSim` skips a leading NaN similarity. -/
theorem idxmaxSim_cons_nan {a : CandidateRow} (l : List CandidateRow)
    (hsa : a.similarity = none) : idxmaxSim (a :: l) = idxmaxSim l := by
  cases h2 : idxmaxSim l with
  | none => unfold idxmaxSim; rw [hsa, h2]
  | some p => obtain ⟨b, bs⟩ := p; unfold idxmaxSim; rw [hsa, h2]

/-- Helper: a present head similarity wins when the tail is all-NaN. -/
theorem idxmaxSim_cons_last {a : CandidateRow} {l : List CandidateRow} {s0 : ℚ}
    (hsa : a.similarity = some s0) (h2 : idxmaxSim l = none) :
    idxmaxSim (a :: l) = some (a, s0) := by
  unfold idxmaxSim
  rw [hsa, h2]

/-- Helper: a present head similarity is compared against the tail maximum;
ties keep the head (the earlier row). -/
theorem idxmaxSim_cons_cmp {a : CandidateRow} {l : List CandidateRow} {s0 bs : ℚ}
    {b : CandidateRow} (hsa : a.similarity = some s0) (h2 : idxmaxSim l = some (b, bs)) :
    idxmaxSim (a :: l) = if bs > s0 then some (b, bs) else some (a, s0) := by
  unfold idxmaxSim
  rw [hsa, h2]

/-- Helper: when `idxmaxSim` fails, every similarity in the group is NaN. -/
theorem idxmaxSim_none {g : List CandidateRow} (h : idxmaxSim g = none) :
    ∀ r ∈ g, r.similarity = none := by
  induction g with
  | nil => intro r hr; cases hr
  | cons a l ih =>
    intro r hr
    cases hsa : a.similarity with
    | none =>
      rw [idxmaxSim_cons_nan l hsa] at h
      rcases List.mem_cons.mp hr with rfl | hr2
      · exact hsa
      · exact ih h r hr2
    | some s0 =>
      exfalso
      cases h2 : idxmaxSim l with
      | none => rw [idxmaxSim_cons_last hsa h2] at h; cases h
      | some p =>
        obtain ⟨b, bs⟩ := p
        rw [idxmaxSim_cons_cmp hsa h2] at h
        by_cases hgt : bs > s0
        · rw [if_pos hgt] at h; cases h
        · rw [if_neg hgt] at h; cases h

/-- Helper: the row returned by `idxmaxSim` is the first row achieving the
maximum present similarity. -/
theorem idxmaxSim_firstMax : ∀ {g : List CandidateRow} {t : CandidateRow} {s : ℚ},
    idxmaxSim g = some (t, s) → FirstMaxOf g t s := by
  intro g
  induction g with
  | nil => intro t s h; cases h
  | cons a l ih =>
    intro t s h
    cases hsa : a.similarity with
    | none =>
      rw [idxmaxSim_cons_nan l hsa] at h
      obtain ⟨ht, hle, pre, post, hsplit, hpre⟩ := ih h
      refine ⟨ht, ?_, a :: pre, post, by rw [hsplit]; rfl, ?_⟩
      · intro r hr q hq
        rcases List.mem_cons.mp hr with rfl | hr2
        · rw [hsa] at hq; cases hq
        · exact hle r hr2 q hq
      · intro r hr q hq
        rcases List.mem_cons.mp hr with rfl | hr2
        · rw [hsa] at hq; cases hq
        · exact hpre r hr2 q hq
    | some s0 =>
      cases h2 : idxmaxSim l with
      | none =>
        rw [idxmaxSim_cons_last hsa h2] at h
        simp only [Option.some.injEq, Prod.mk.injEq] at h
        obtain ⟨rfl, rfl⟩ := h
        refine ⟨hsa, ?_, [], l, rfl, by simp⟩
        intro r hr q hq
        rcases List.mem_cons.mp hr with rfl | hr2
        · rw [hsa] at hq; injection hq with hq; exact le_of_eq hq.symm
        · rw [idxmaxSim_none h2 r hr2] at hq; cases hq
      | some p =>
        obtain ⟨b, bs⟩ := p
        rw [idxmaxSim_cons_cmp hsa h2] at h
        by_cases hgt : bs > s0
        · rw [if_pos hgt] at h
          simp only [Option.some.injEq, Prod.mk.injEq] at h
          obtain ⟨rfl, rfl⟩ := h
          obtain ⟨ht, hle, pre, post, hsplit, hpre⟩ := ih h2
          refine ⟨ht, ?_, a :: pre, post, by rw [hsplit]; rfl, ?_⟩
          · intro r hr q hq
            rcases List.mem_cons.mp hr with rfl | hr2
            · rw [hsa] at hq; injection hq with hq; subst hq; exact le_of_lt hgt
            · exact hle r hr2 q hq
          · intro r hr q hq
            rcases List.mem_cons.mp hr with rfl | hr2
            · rw [hsa] at hq; injection hq with hq; subst hq; exact hgt
            · exact hpre r hr2 q hq
        · rw [if_neg hgt] at h
          simp only [Option.some.injEq, Prod.mk.injEq] at h
          obtain ⟨rfl, rfl⟩ := h
          obtain ⟨hb, hble, _⟩ := ih h2
          refine ⟨hsa, ?_, [], l, rfl, by simp⟩
          intro r hr q hq
          rcases List.mem_cons.mp hr with rfl | hr2
          · rw [hsa] at hq; injection hq with hq; exact le_of_eq hq.symm
          · exact le_trans (hble r hr2 q hq) (not_lt.mp hgt)

/-- Helper: reduction of `label_matches` once neither early branch fires and
`idxmax` has been resolved. -/
theorem label_matches_else (r0 : CandidateRow) (rs : List CandidateRow)
    (hc1 : ¬ ∃ r ∈ r0 :: rs, r.match_stat = pstr "No match")
    (hc2 : ¬ ∃ r ∈ r0 :: rs, r.match_stat = pstr "No edition")
    {t : CandidateRow} {s : ℚ} (hm : idxmaxSim (r0 :: rs) = some (t, s)) :
    label_matches r0 rs = (
      if evaluate_match t = pstr "Correct" then
        some (mkResult r0 (pstr "Correct") (some t.matched_ID) (some s)
          (some ((r0 :: rs).filter (fun r => decide (evaluate_match r = pstr "Correct"))).length))
      else if ((r0 :: rs).filter (fun r => decide (evaluate_match r = pstr "Correct"))).length > 0 then
        match idxmaxSim ((r0 :: rs).filter (fun r => decide (evaluate_match r = pstr "Correct"))) with
        | none => none
        | some (w, ws) =>
          some (mkResult r0 (pstr "Secondary correct") (some w.matched_ID) (some ws)
            (some ((r0 :: rs).filter (fun r => decide (evaluate_match r = pstr "Correct"))).length))
      else
        some (mkResult r0 (pstr "Incorrect") (some t.matched_ID) (some s)
          (some ((r0 :: rs).filter (fun r => decide (evaluate_match r = pstr "Correct"))).length))) := by
  unfold label_matches
  rw [if_neg hc1, if_neg hc2, hm]

/-- Claim C1: for every group with no "No match" and no "No edition" row (all
similarities present), the classifier picks the maximum-similarity row (ties
broken by first occurrence in input order) as top candidate; a locally
Correct top candidate gives Outcome "Correct" with that winner, otherwise a
locally Correct row of maximum similarity gives "Secondary correct" with that
winner, otherwise Outcome "Incorrect" with the top candidate as winner; and
`correct_count` is the number of locally Correct rows of the group. -/
theorem c1_group_decision_policy (r0 : CandidateRow) (rs : List CandidateRow)
    (hnm : ∀ r ∈ r0 :: rs, r.match_stat ≠ pstr "No match")
    (hne : ∀ r ∈ r0 :: rs, r.match_stat ≠ pstr "No edition")
    (hsim : ∀ r ∈ r0 :: rs, (r.similarity).isSome = true) :
    C1Concl r0 rs := by
  have hc1 : ¬ ∃ r ∈ r0 :: rs, r.match_stat = pstr "No match" := by
    rintro ⟨r, hr, hEq⟩
    exact hnm r hr hEq
  have hc2 : ¬ ∃ r ∈ r0 :: rs, r.match_stat = pstr "No edition" := by
    rintro ⟨r, hr, hEq⟩
    exact hne r hr hEq
  obtain ⟨p, hp⟩ := Option.isSome_iff_exists.mp
    (idxmaxSim_isSome ⟨r0, List.mem_cons_self r0 rs, hsim r0 (List.mem_cons_self r0 rs)⟩)
  obtain ⟨t, s⟩ := p
  have hred := label_matches_else r0 rs hc1 hc2 hp
  by_cases htop : evaluate_match t = pstr "Correct"
  · rw [if_pos htop] at hred
    refine ⟨t, s, _, hp, idxmaxSim_firstMax hp, hred, rfl, ?_, ?_, ?_⟩
    · intro _
      exact ⟨rfl, rfl, rfl⟩
    · intro hcontra _
      exact absurd htop hcontra
    · intro hcontra _
      exact absurd htop hcontra
  · rw [if_neg htop] at hred
    by_cases hex : ∃ r ∈ r0 :: rs, evaluate_match r = pstr "Correct"
    · obtain ⟨rc, hrc, hrcEq⟩ := hex
      have hrcf : rc ∈ (r0 :: rs).filter (fun r => decide (evaluate_match r = pstr "Correct")) := by
        rw [List.mem_filter]
        exact ⟨hrc, by simp [hrcEq]⟩
      have hpos : ((r0 :: rs).filter (fun r => decide (evaluate_match r = pstr "Correct"))).length > 0 :=
        List.length_pos_of_mem hrcf
      obtain ⟨pw, hpw⟩ := Option.isSome_iff_exists.mp
        (idxmaxSim_isSome ⟨rc, hrcf, hsim rc hrc⟩)
      obtain ⟨w, ws⟩ := pw
      rw [if_pos hpos, hpw] at hred
      refine ⟨t, s, _, hp, idxmaxSim_firstMax hp, hred, rfl, ?_, ?_, ?_⟩
      · intro hcontra
        exact absurd hcontra htop
      · intro _ _
        exact ⟨rfl, w, ws, idxmaxSim_firstMax hpw, rfl, rfl⟩
      · intro _ hall
        exact absurd hrcEq (hall rc hrc)
    · have hflt : (r0 :: rs).filter (fun r => decide (evaluate_match r = pstr "Correct")) = [] := by
        rw [List.filter_eq_nil_iff]
        intro r hr
        simp only [decide_eq_true_eq]
        intro hc
        exact hex ⟨r, hr, hc⟩
      have hnpos : ¬ ((r0 :: rs).filter (fun r => decide (evaluate_match r = pstr "Correct"))).length > 0 := by
        rw [hflt]
        simp
      rw [if_neg hnpos] at hred
      refine ⟨t, s, _, hp, idxmaxSim_firstMax hp, hred, rfl, ?_, ?_, ?_⟩
      · intro hcontra
        exact absurd hcontra htop
      · intro _ hex2
        exact absurd hex2 hex
      · intro _ _
        exact ⟨rfl, rfl, rfl⟩

/-- Witness for C1: the spec example group with similarities 0.9 (wrong ID)
and 0.7 (correct ID). -/
theorem c1_group_decision_policy_witness : C1Concl c1wA [c1wB] :=
  c1_group_decision_policy c1wA [c1wB] (by decide) (by decide) (by decide)

/-- Counterexample to claim C2 as stated: the group `[c2xA, c2xB]` contains
the No-match row `c2xB` whose ground truth is no-match (so the row is locally
Correct and the claim demands Outcome "Correct"), yet `label_matches`
evaluates the group's FIRST row (`group.iloc[0]`, here the locally Incorrect
Single row `c2xA`) and returns Outcome "Incorrect". -/
theorem c2_counterexample_first_row :
    c2xB ∈ [c2xA, c2xB] ∧ c2xB.match_stat = pstr "No match" ∧
    c2xB.gt_truth_type = pstr "no-match" ∧ evaluate_match c2xB = pstr "Correct" ∧
    c2xA.match_stat ≠ pstr "No match" ∧
    (label_matches c2xA [c2xB]).map (fun r => r.result) = some (pstr "Incorrect") := by
  decide

/-- Amended claim C2: when a group contains a No-match row, the Outcome is
the local evaluation of the group's first row (not necessarily the No-match
row), with no winning ID and no similarity; in particular when the FIRST row
is a No-match row with ground truth no-match, the Outcome is "Correct"
regardless of the other rows. -/
theorem c2_no_match_group_uses_first_row (r0 : CandidateRow) (rs : List CandidateRow)
    (h : ∃ r ∈ r0 :: rs, r.match_stat = pstr "No match") : C2Concl r0 rs := by
  have hmain : label_matches r0 rs =
      some (mkResult r0
        (if evaluate_match r0 = pstr "Correct" then pstr "Correct" else pstr "Incorrect")
        none none none) := by
    unfold label_matches
    rw [if_pos h]
    by_cases hc : evaluate_match r0 = pstr "Correct"
    · rw [if_pos hc, if_pos hc]
    · rw [if_neg hc, if_neg hc]
  refine ⟨hmain, ?_⟩
  intro h1 h2
  have hc : evaluate_match r0 = pstr "Correct" := by
    unfold evaluate_match
    rw [if_pos h1, if_pos h2]
  rw [hmain, if_pos hc]
  rfl

/-- Witness for the amended C2: a singleton group whose (first) row is a
No-match row with ground truth no-match. -/
theorem c2_no_match_group_uses_first_row_witness : C2Concl c2wA [] :=
  c2_no_match_group_uses_first_row c2wA [] (by decide)

/-- Counterexample to claim C9 as stated: a group consisting of one real
(Single) candidate with a missing similarity is not assigned an Outcome —
`label_matches` propagates the `idxmax` failure (`none` models the raised
`ValueError`), and at pipeline level the whole run aborts with that error
instead of completing. -/
theorem c9_counterexample_all_nan_group :
    c9row.match_stat = pstr "Single" ∧ c9row.similarity = none ∧
    label_matches c9row [] = none ∧
    mainFlow [c9m1] [c9g1] = RunOutcome.exn (pstr "ValueError") := by
  decide

/-- Amended claim C9: per-row anomalies are tolerated short of a group whose
scanned similarities are all missing: any group with a No-match row, or with
a No-edition row, or in which every row's similarity is present (its
`matched_ID` values may still be missing), is assigned an Outcome. -/
theorem c9_anomalies_tolerated (r0 : CandidateRow) (rs : List CandidateRow)
    (h : (∃ r ∈ r0 :: rs, r.match_stat = pstr "No match") ∨
         (∃ r ∈ r0 :: rs, r.match_stat = pstr "No edition") ∨
         (∀ r ∈ r0 :: rs, (r.similarity).isSome = true)) : C9Concl r0 rs := by
  unfold C9Concl
  by_cases hc1 : ∃ r ∈ r0 :: rs, r.match_stat = pstr "No match"
  · unfold label_matches
    rw [if_pos hc1]
    by_cases hc : evaluate_match r0 = pstr "Correct"
    · rw [if_pos hc]; rfl
    · rw [if_neg hc]; rfl
  by_cases hc2 : ∃ r ∈ r0 :: rs, r.match_stat = pstr "No edition"
  · unfold label_matches
    rw [if_neg hc1, if_pos hc2]
    rfl
  have hall : ∀ r ∈ r0 :: rs, (r.similarity).isSome = true := by
    rcases h with h | h | h
    · exact absurd h hc1
    · exact absurd h hc2
    · exact h
  obtain ⟨p, hp⟩ := Option.isSome_iff_exists.mp
    (idxmaxSim_isSome ⟨r0, List.mem_cons_self r0 rs, hall r0 (List.mem_cons_self r0 rs)⟩)
  obtain ⟨t, s⟩ := p
  rw [label_matches_else r0 rs hc1 hc2 hp]
  by_cases htop : evaluate_match t = pstr "Correct"
  · rw [if_pos htop]
    rfl
  rw [if_neg htop]
  by_cases hex : ∃ r ∈ r0 :: rs, evaluate_match r = pstr "Correct"
  · obtain ⟨rc, hrc, hrcEq⟩ := hex
    have hrcf : rc ∈ (r0 :: rs).filter (fun r => decide (evaluate_match r = pstr "Correct")) := by
      rw [List.mem_filter]
      exact ⟨hrc, by simp [hrcEq]⟩
    have hpos : ((r0 :: rs).filter (fun r => decide (evaluate_match r = pstr "Correct"))).length > 0 :=
      List.length_pos_of_mem hrcf
    obtain ⟨pw, hpw⟩ := Option.isSome_iff_exists.mp
      (idxmaxSim_isSome ⟨rc, hrcf, hall rc hrc⟩)
    obtain ⟨w, ws⟩ := pw
    rw [if_pos hpos, hpw]
    rfl
  · have hflt : (r0 :: rs).filter (fun r => decide (evaluate_match r = pstr "Correct")) = [] := by
      rw [List.filter_eq_nil_iff]
      intro r hr
      simp only [decide_eq_true_eq]
      intro hc
      exact hex ⟨r, hr, hc⟩
    have hnpos : ¬ ((r0 :: rs).filter (fun r => decide (evaluate_match r = pstr "Correct"))).length > 0 := by
      rw [hflt]
      simp
    rw [if_neg hnpos]
    rfl

/-- Witness for the amended C9: a group whose row has a present similarity
but a missing (NaN) `matched_ID` is still assigned an Outcome. -/
theorem c9_anomalies_tolerated_witness : C9Concl c9wRow [] :=
  c9_anomalies_tolerated c9wRow [] (Or.inr (Or.inr (by decide)))

/-- Claim C3 (code bug): with an empty input table, `load_data` returns the
`(None, None, None)` triple, and the main block then unconditionally calls
`evaluate_extracted_card_types(None, None)`, which subscripts `None` and
raises `TypeError` — the run aborts instead of the claimed exception-free
"no data to evaluate" skip.  When both inputs are non-empty but nothing
survives the cardinality filter, the run does take the normal skip path. -/
theorem c3_empty_input_raises_typeerror :
    mainFlow [] [c3g1] = RunOutcome.exn (pstr "TypeError") ∧
    mainFlow [c3m1] [c3g1, c3g2] = RunOutcome.noData := by
  decide

/-- Helper: `rowGet` over a list tabulating a function. -/
theorem rowGet_map_pair (l : List PStr) (f : PStr → ℕ) (k : PStr) :
    rowGet (l.map (fun x => (x, f x))) k = if k ∈ l then f k else 0 := by
  induction l with
  | nil => rfl
  | cons a t ih =>
    by_cases hak : a = k
    · subst hak
      unfold rowGet
      rw [List.map_cons, List.find?_cons_of_pos _ (by simp)]
      simp
    · unfold rowGet
      rw [List.map_cons, List.find?_cons_of_neg _ (by simp [hak])]
      have hfold : ((List.find? (fun p => decide (p.1 = k)) (t.map (fun x => (x, f x)))).map
          (fun p => p.2)).getD 0 = rowGet (t.map (fun x => (x, f x))) k := rfl
      rw [hfold, ih]
      have hka : ¬ k = a := fun h => hak h.symm
      simp [List.mem_cons, hka]

/-- Helper: reading any result label from a reindexed cross-tab row gives the
pivot count of that (`match_stat`, `result`) combination, absent columns
reading as 0. -/
theorem rowGet_crossTabRow (results : List ResultRow) (stat k : PStr) :
    rowGet (crossTabRow results stat) k = statResultCount results stat k := by
  unfold crossTabRow
  rw [rowGet_map_pair]
  by_cases hk : k ∈ all_results results
  · rw [if_pos hk]
  · rw [if_neg hk]
    unfold statResultCount
    have hnil : results.filter (fun r => decide (r.match_stat = stat ∧ r.result = k)) = [] := by
      rw [List.filter_eq_nil_iff]
      intro r hr
      simp only [decide_eq_true_eq, not_and]
      intro _ hres
      exact hk (by
        unfold all_results
        rw [List.mem_dedup]
        exact List.mem_map.mpr ⟨r, hr, hres⟩)
    rw [hnil]
    rfl

/-- Claim C4: for every cross-tab row the derived error rate equals
(Incorrect + Secondary correct) / (Correct + Incorrect + Secondary correct)
computed from that row's counts, and it is the NaN value (`none`) — not a
division-by-zero fault — when that total is zero. -/
theorem c4_error_rate_of_cross_tab (results : List ResultRow) (stat : PStr) :
    calculate_error_rate (crossTabRow results stat) =
      (if statResultCount results stat (pstr "Correct") +
          statResultCount results stat (pstr "Incorrect") +
          statResultCount results stat (pstr "Secondary correct") = 0 then none
       else some (((statResultCount results stat (pstr "Incorrect") : ℚ) +
            (statResultCount results stat (pstr "Secondary correct") : ℚ)) /
          ((statResultCount results stat (pstr "Correct") : ℚ) +
            (statResultCount results stat (pstr "Incorrect") : ℚ) +
            (statResultCount results stat (pstr "Secondary correct") : ℚ)))) := by
  simp only [calculate_error_rate, rowGet_crossTabRow]

/-- Counterexample to claim C6 as stated: the match object of card c1 has two
retained candidate rows, the second of which has `match_stat` "Multiple", yet
the card is labelled "Complete" — completeness is computed from the
per-match-object outcome rows (each carrying the first candidate row's
`match_stat`), not from every retained CandidateRow. -/
theorem c6_counterexample_candidate_rows :
    c6xA.card_ID = pstr "c1" ∧ c6xB.card_ID = pstr "c1" ∧
    c6xB.match_stat ≠ pstr "Single" ∧
    (label_matches c6xA [c6xB]).map
      (fun res => (evaluate_card_completeness [res]).map (fun cr => cr.completeness)) =
      some [pstr "Complete"] := by
  decide

/-- Amended claim C6: for every row of the completeness table, the label is
"Complete" iff every OUTCOME row of that card has `match_stat` "Single" (each
outcome row carries the `match_stat` of its group's first candidate row), and
the completeness summary pivots card counts by (`card_type` ×
completeness). -/
theorem c6_card_completeness (results : List ResultRow) (cr : CompletenessRow)
    (h : cr ∈ evaluate_card_completeness results) : C6Concl results cr := by
  obtain ⟨cid, hcid, rfl⟩ := List.mem_map.mp h
  constructor
  · have hid : (cardSummary results cid).card_ID = cid := rfl
    rw [hid]
    by_cases hall : ∀ r ∈ resultsOfCard results cid, r.match_stat = pstr "Single"
    · have hcompl : (cardSummary results cid).completeness = pstr "Complete" := by
        show (if ∀ r ∈ resultsOfCard results cid, r.match_stat = pstr "Single" then
          pstr "Complete" else pstr "Incomplete") = pstr "Complete"
        rw [if_pos hall]
      rw [hcompl]
      constructor
      · intro _ r hr hrid
        exact hall r (by
          unfold resultsOfCard
          rw [List.mem_filter]
          exact ⟨hr, by simp [hrid]⟩)
      · intro _
        rfl
    · have hcompl : (cardSummary results cid).completeness = pstr "Incomplete" := by
        show (if ∀ r ∈ resultsOfCard results cid, r.match_stat = pstr "Single" then
          pstr "Complete" else pstr "Incomplete") = pstr "Incomplete"
        rw [if_neg hall]
      rw [hcompl]
      constructor
      · intro habs
        exact absurd habs (by decide)
      · intro hforall
        exfalso
        apply hall
        intro r hr
        rw [resultsOfCard, List.mem_filter] at hr
        obtain ⟨hrmem, hrid⟩ := hr
        simp only [decide_eq_true_eq] at hrid
        exact hforall r hrmem hrid
  · intro ctype cstat
    unfold completeness_pivot evaluate_card_completeness
    rw [← List.countP_eq_length_filter, List.countP_map, List.countP_eq_length_filter]
    rfl

/-- Witness for the amended C6: the completeness row of a card whose only
outcome row is Single. -/
theorem c6_card_completeness_witness : C6Concl [c6wR] (cardSummary [c6wR] (pstr "c2")) :=
  c6_card_completeness [c6wR] (cardSummary [c6wR] (pstr "c2")) (by decide)

/-- Helper: sums of pointwise-added maps split. -/
theorem sum_map_add_nat {α : Type} (l : List α) (f g : α → ℕ) :
    (l.map (fun x => f x + g x)).sum = (l.map f).sum + (l.map g).sum := by
  induction l with
  | nil => rfl
  | cons a t ih =>
    rw [List.map_cons, List.sum_cons, List.map_cons, List.sum_cons,
      List.map_cons, List.sum_cons, ih]
    omega

/-- Helper: an indicator summed over a list avoiding its point vanishes. -/
theorem sum_indicator_not_mem {α : Type} [DecidableEq α] (d : List α) (a : α) (ha : a ∉ d) :
    (d.map (fun c => if c = a then 1 else 0)).sum = 0 := by
  induction d with
  | nil => rfl
  | cons b t ih =>
    rw [List.map_cons, List.sum_cons]
    have hba : ¬ b = a := fun h => ha (h ▸ List.mem_cons_self b t)
    rw [if_neg hba, ih (fun h => ha (List.mem_cons_of_mem b h))]

/-- Helper: an indicator summed over a duplicate-free list containing its
point is 1. -/
theorem sum_indicator_mem {α : Type} [DecidableEq α] (d : List α) (a : α)
    (hd : d.Nodup) (ha : a ∈ d) :
    (d.map (fun c => if c = a then 1 else 0)).sum = 1 := by
  induction d with
  | nil => cases ha
  | cons b t ih =>
    rw [List.map_cons, List.sum_cons]
    rcases List.mem_cons.mp ha with rfl | hat
    · rw [if_pos rfl, sum_indicator_not_mem t _ (List.nodup_cons.mp hd).1]
    · have hba : ¬ b = a := by
        intro h
        exact (List.nodup_cons.mp hd).1 (h ▸ hat)
      rw [if_neg hba, ih (List.nodup_cons.mp hd).2 hat]

/-- Helper: summing the counts of a list over any duplicate-free list of
labels covering it gives its length. -/
theorem sum_count_covers {α : Type} [DecidableEq α] (d : List α) (hd : d.Nodup) :
    ∀ l : List α, (∀ x ∈ l, x ∈ d) → (d.map (fun c => l.count c)).sum = l.length := by
  intro l
  induction l with
  | nil =>
    intro _
    have hzero : d.map (fun c => ([] : List α).count c) = d.map (fun _ => 0) :=
      List.map_congr_left (fun c _ => List.count_nil c)
    rw [hzero]
    simp
  | cons a t ih =>
    intro hcov
    have hcnt : d.map (fun c => (a :: t).count c) =
        d.map (fun c => t.count c + (if c = a then 1 else 0)) := by
      refine List.map_congr_left (fun c _ => ?_)
      rw [List.count_cons]
      by_cases h : a = c
      · subst h
        simp
      · have hca : ¬ c = a := fun hh => h hh.symm
        simp [h, hca]
    rw [hcnt, sum_map_add_nat,
      ih (fun x hx => hcov x (List.mem_cons_of_mem a hx)),
      sum_indicator_mem d a hd (hcov a (List.mem_cons_self a t))]
    rfl

/-- Helper: the per-class supports of a classification report always sum to
the number of truth entries. -/
theorem supportSum_eq_length {α : Type} [DecidableEq α] (ytrue ypred : List α) :
    supportSum ytrue ypred = ytrue.length := by
  unfold supportSum reportClasses
  exact sum_count_covers _ (List.nodup_dedup _) ytrue
    (fun x hx => List.mem_dedup.mpr (List.mem_append_left _ hx))

/-- Counterexample to claim C7 as stated: with one card carrying two distinct
`card_type` values, the card-type report's supports sum to 2 while the
confusion matrix is built from exactly 1 distinct card. -/
theorem c7_counterexample_card_type_supports :
    supportSum (cardTypesYTrue [c7m1, c7m2] [c7g1]) (cardTypesYPred [c7m1, c7m2] [c7g1]) = 2 ∧
    (cardTypesCards [c7m1, c7m2] [c7g1]).length = 1 ∧ (2 : ℕ) ≠ 1 := by
  decide

/-- Amended claim C7: each classification report's per-class supports sum to
the number of rows of the table it is computed from; for the occurrence
report this is exactly the number of distinct retained (non-reference)
cards, while for the card-type report it is the row count of the merged
distinct-(card, type) table, which can exceed the distinct-card count when a
card carries several `card_type` (or `gt_card_type`) values. -/
theorem c7_support_sums (ms : List MatchRow) (gs : List GtRow) :
    supportSum (cardTypesYTrue ms gs) (cardTypesYPred ms gs) =
      (evaluate_extracted_card_types ms gs).length ∧
    supportSum (occYTrue ms gs) (occYPred ms gs) = (occCards ms).length ∧
    (occCards ms).Nodup := by
  refine ⟨?_, ?_, List.nodup_dedup _⟩
  · rw [supportSum_eq_length]
    unfold cardTypesYTrue
    rw [List.length_map]
  · rw [supportSum_eq_length]
    unfold occYTrue evaluate_extracted_occurences
    rw [List.length_map, List.length_map]

/-- Helper: explicit form of one linspace entry. -/
theorem linspace_getD (a b : ℚ) (n k : ℕ) (hk : k < n) :
    (linspace a b n).getD k 0 = a + (b - a) * (k : ℚ) / ((n : ℚ) - 1) := by
  unfold linspace
  rw [List.getD_eq_getElem?_getD, List.getElem?_map, List.getElem?_range hk]
  rfl

/-- Counterexample to claim C8 as stated: `np.linspace(bin_min, bin_max, 40)`
produces 40 bin EDGES, so the histogram has 39 buckets, not the claimed 40
(shown on the concrete series [0] and [1]). -/
theorem c8_counterexample_39_buckets :
    (histBins [(0 : ℚ)] [(1 : ℚ)]).map numHistBuckets = some 39 ∧ (39 : ℕ) ≠ 40 := by
  constructor
  · have h : histBins [(0 : ℚ)] [(1 : ℚ)] =
        some (linspace (binLo 0 0 1 1) (binHi 0 0 1 1) 40) := rfl
    rw [h]
    show some (numHistBuckets (linspace (binLo 0 0 1 1) (binHi 0 0 1 1) 40)) = some 39
    have h2 : numHistBuckets (linspace (binLo 0 0 1 1) (binHi 0 0 1 1) 40) = 39 := by
      unfold numHistBuckets linspace
      rw [List.length_map, List.length_range]
    rw [h2]
  · decide

/-- Amended claim C8: for every rendered slice with nonempty correct and
incorrect series, the bin-edge array is `linspace` over the observed min/max
across both series padded by 5% of the observed range and clipped to [0,1],
with exactly 40 edges — hence 39 buckets — whose first and last entries are
those padded clipped bounds. -/
theorem c8_hist_bins_geometry (c i : List ℚ) (cmin cmax imin imax : ℚ)
    (hc1 : npMin c = some cmin) (hc2 : npMax c = some cmax)
    (hi1 : npMin i = some imin) (hi2 : npMax i = some imax) :
    C8Concl c i cmin cmax imin imax := by
  have hlen : (linspace (binLo cmin cmax imin imax) (binHi cmin cmax imin imax) 40).length = 40 := by
    unfold linspace
    rw [List.length_map, List.length_range]
  refine ⟨?_, hlen, ?_, ?_, ?_⟩
  · unfold histBins
    rw [hc1, hc2, hi1, hi2]
    rfl
  · unfold numHistBuckets
    rw [hlen]
  · rw [linspace_getD _ _ 40 0 (by norm_num)]
    norm_num
  · rw [linspace_getD _ _ 40 39 (by norm_num)]
    push_cast
    have h39 : (40 : ℚ) - 1 = 39 := by norm_num
    rw [h39]
    field_simp

/-- Witness for the amended C8: the concrete series [0] and [1]. -/
theorem c8_hist_bins_geometry_witness : C8Concl [0] [1] 0 0 1 1 :=
  c8_hist_bins_geometry [0] [1] 0 0 1 1 rfl rfl rfl rfl
